import Mathlib

/-!
# Bedrock virtual machine: a shallow embedding

This file embeds the Bedrock 16-bit virtual machine (the version of
`main.cpp` built around `disk_controller`, `memory_adapter`, the 40-word
`assembler` firmware and the `do_jmp` / `do_bsr` / `do_bsw` helpers) into
Lean 4, and proves properties of the embedded program.

Machine integers are modelled as `Nat` with explicit `% 2^16` (resp.
`% 2^32`, `% 2^8`) at the places where the C++ code truncates: assignments
to `std::uint16_t`, 32-bit intermediate arithmetic, and `char`-level file
and console I/O.  The standard-input stream is a `List Nat` of bytes held
in the machine state; `std::cin.get()` at end of input returns the `int`
value `-1` (`EOF`), which the source masks with `& 0xff`.  Disk files are
byte-addressed total functions `Nat → Nat`.
-/

namespace Bedrock

/-- The 40-word firmware image, `constexpr std::array<std::uint16_t, 40> assembler`
from the source, in order from address 0. -/
def assembler : List Nat :=
  [0x2001, 0xEB00, 0x2B28, 0x2108, 0x0201, 0x210A, 0x0211, 0xC000,
   0xF0C0, 0x00BB,
   0xE20C, 0x210A, 0x6021, 0x2110, 0x0001,
   0x00BB,
   0x203A, 0x8002, 0x2118, 0x0101,
   0x2030, 0x6002, 0x211A, 0x0111,
   0x2057, 0x6002,
   0x9F4F, 0xCF0F,
   0x2201, 0x5EE2, 0x2003, 0xB00E,
   0x2126, 0x0101,
   0x50BD, 0x40F0, 0x5D2D,
   0xE00C,
   0x210A, 0x0001]

/-- Word of the firmware image at an address below 40. -/
def firmwareWord (a : Nat) : Nat := assembler.getD a 0

/-- Model of `class memory_adapter`: a RAM vector of `2^16 - 40` words (all
zero at construction), overlaid below address 40 by the firmware image.
Like the source, RAM is keyed by `address - 40`. -/
structure MemoryAdapter where
  ram : Nat → Nat

/-- Model of `memory_adapter::write`: stores drop silently below address 40. -/
def MemoryAdapter.write (m : MemoryAdapter) (address word : Nat) : MemoryAdapter :=
  if address ≥ 40 then
    { ram := fun a => if a = address - 40 then word else m.ram a }
  else m

/-- Model of `memory_adapter::read`: firmware below address 40, RAM above. -/
def MemoryAdapter.read (m : MemoryAdapter) (address : Nat) : Nat :=
  if address ≥ 40 then m.ram (address - 40) else firmwareWord address

/-- A fresh `memory_adapter` (zero-initialised RAM vector). -/
def MemoryAdapter.init : MemoryAdapter := { ram := fun _ => 0 }

/-- Model of `struct disk_controller`.  `attached` models `file.is_open()`;
`data` is the byte content of the backing file, addressed by byte offset. -/
structure DiskController where
  attached : Bool
  sectorCount : Nat
  sector : Nat
  address : Nat
  data : Nat → Nat

/-- The constructor run with a null path: no file, all registers zero. -/
def DiskController.absent : DiskController :=
  { attached := false, sectorCount := 0, sector := 0, address := 0, data := fun _ => 0 }

/-- The constructor run with a real path: `sector_count` is
`file_size / 512`, clamped below `0xFFFF` (`n_sectors < max_word ? n_sectors : max_word`). -/
def DiskController.attach (size : Nat) (data : Nat → Nat) : DiskController :=
  { attached := true,
    sectorCount := if size / 512 < 0xFFFF then size / 512 else 0xFFFF,
    sector := 0, address := 0, data := data }

/-- The word assembled from the two file bytes read in iteration `i` of the
disk-read loop: `disk.file.get() << 8 | disk.file.get()` after a seek to
`512 * sector`.  `std::fstream::get` returns the byte as an `unsigned char`
value, hence the `% 256`. -/
def sectorWord (d : DiskController) (i : Nat) : Nat :=
  (d.data (512 * d.sector + 2 * i) % 256) * 256 + d.data (512 * d.sector + 2 * i + 1) % 256

/-- The read-command loop `for (i = 0; i < sector_words; ++i)
memory.write(disk.address + i, ...)` with `fuel` iterations left and loop
counter `i`.  `disk.address + i` passes through the `std::uint16_t`
parameter of `memory_adapter::write`, hence the `% 65536`. -/
def diskReadLoop (d : DiskController) (m : MemoryAdapter) (i fuel : Nat) : MemoryAdapter :=
  match fuel with
  | 0 => m
  | fuel + 1 =>
      diskReadLoop d (m.write ((d.address + i) % 65536) (sectorWord d i)) (i + 1) fuel

/-- The write-command loop `for (i = 0; i < sector_size; ++i)` (note the
source iterates `sector_size` = 512 times, not `sector_words` = 256):
each iteration reads one word through the adapter and emits its high byte
then its low byte (`put(word >> 8); put(word & 0xff)`) at byte offsets
`512 * sector + 2 * i` and `512 * sector + 2 * i + 1`. -/
def diskWriteLoop (d : DiskController) (m : MemoryAdapter) (i fuel : Nat) : DiskController :=
  match fuel with
  | 0 => d
  | fuel + 1 =>
      diskWriteLoop
        { d with
          data := fun o =>
            if o = 512 * d.sector + 2 * i + 1 then m.read ((d.address + i) % 65536) % 256
            else if o = 512 * d.sector + 2 * i then m.read ((d.address + i) % 65536) / 256 % 256
            else d.data o }
        m (i + 1) fuel

/-- Model of `do_disk_operation`: a no-op when no file is attached; command 0 reads
one sector into memory, command 1 runs the (512-iteration) write loop, any
other command is ignored; both commands are no-ops when
`sector ≥ sector_count`. -/
def do_disk_operation (d : DiskController) (m : MemoryAdapter) (control : Nat) :
    DiskController × MemoryAdapter :=
  if d.attached = false then (d, m)
  else if control = 0 then
    if d.sector < d.sectorCount then (d, diskReadLoop d m 0 256) else (d, m)
  else if control = 1 then
    if d.sector < d.sectorCount then (diskWriteLoop d m 0 512, m) else (d, m)
  else (d, m)

/-! ## Instruction decoding -/

/-- Field extraction in `decode`: opcode nibble `(word & 0xf000) >> 12`. -/
def decodeOp (w : Nat) : Nat := (w &&& 0xF000) >>> 12

/-- Field extraction in `decode`: destination nibble `(word & 0x0f00) >> 8`. -/
def decodeDst (w : Nat) : Nat := (w &&& 0x0F00) >>> 8

/-- Field extraction in `decode`: first-source nibble `(word & 0x00f0) >> 4`. -/
def decodeSrc1 (w : Nat) : Nat := (w &&& 0x00F0) >>> 4

/-- Field extraction in `decode`: second-source nibble `word & 0x000f`. -/
def decodeSrc0 (w : Nat) : Nat := w &&& 0x000F

/-! ## Machine state and the execution step -/

/-- Model of `struct machine_state`, extended with the explicit console streams:
`input` is the unread suffix of standard input (bytes), `output` the bytes
emitted so far. -/
structure MachineState where
  pc : Nat
  hi : Nat
  regs : Nat → Nat
  memory : MemoryAdapter
  disk0 : DiskController
  disk1 : DiskController
  halt : Bool
  input : List Nat
  output : List Nat

/-- Assignment to a register: C++ registers are `std::uint16_t`, so the
stored value is truncated modulo `2^16`. -/
def setReg (s : MachineState) (i v : Nat) : MachineState :=
  { s with regs := fun j => if j = i then v % 65536 else s.regs j }

/-- Model of `do_jmp`: when the guard register is non-zero, the program counter is
loaded from `regs[src0]` before the link is stored into `regs[dst]`. -/
def do_jmp (s : MachineState) (dst src1 src0 : Nat) : MachineState :=
  if s.regs src1 ≠ 0 then
    let old_pc := s.pc
    setReg { s with pc := s.regs src0 } dst old_pc
  else s

/-- Model of `do_bsr` (bus read).  Port 0 is serial input: `std::cin.get() & 0xff`,
where `get` at end of input returns `EOF` (the `int` value `-1`), whose low
eight bits are `0xFF`; a byte is returned as an `unsigned char` value.
Ports 1-6 are the disk registers; all other ports read as zero.  The
`src1` field is ignored by the source. -/
def do_bsr (s : MachineState) (dst src1 src0 : Nat) : MachineState :=
  let port := s.regs src0
  if port = 0 then
    match s.input with
    | [] => setReg s dst 0xFF
    | b :: rest => { setReg s dst (b % 256) with input := rest }
  else if port = 1 then setReg s dst s.disk0.sectorCount
  else if port = 2 then setReg s dst s.disk0.sector
  else if port = 3 then setReg s dst s.disk0.address
  else if port = 4 then setReg s dst s.disk1.sectorCount
  else if port = 5 then setReg s dst s.disk1.sector
  else if port = 6 then setReg s dst s.disk1.address
  else setReg s dst 0

/-- Model of `do_bsw` (bus write).  Port 0 emits the low byte to standard output;
ports 1 and 4 issue disk commands; 2, 3, 5, 6 set disk registers; port 7
assigns the halt flag from the written value (`state.halt = word`, a
`bool` conversion, so the flag becomes `word ≠ 0`); other ports drop the
write.  The `dst` field is ignored by the source. -/
def do_bsw (s : MachineState) (dst src1 src0 : Nat) : MachineState :=
  let port := s.regs src0
  let word := s.regs src1
  if port = 0 then { s with output := s.output ++ [word % 256] }
  else if port = 1 then
    let r := do_disk_operation s.disk0 s.memory word
    { s with disk0 := r.1, memory := r.2 }
  else if port = 2 then { s with disk0 := { s.disk0 with sector := word } }
  else if port = 3 then { s with disk0 := { s.disk0 with address := word } }
  else if port = 4 then
    let r := do_disk_operation s.disk1 s.memory word
    { s with disk1 := r.1, memory := r.2 }
  else if port = 5 then { s with disk1 := { s.disk1 with sector := word } }
  else if port = 6 then { s with disk1 := { s.disk1 with address := word } }
  else if port = 7 then { s with halt := word ≠ 0 }
  else s

/-- One iteration of the `execute` loop body: fetch the word at `pc`
through the adapter, increment `pc` modulo `2^16`, decode, dispatch on the
opcode.  Arithmetic opcodes compute in 32 bits (`std::uint32_t`), store
the low half and put the high half in `hi`.  The C++ `switch` over the
sixteen opcode values is rendered as an if-chain; the final `else` arm is
unreachable for fetched words below `2^16` (the opcode is then a nibble). -/
def execInstr (s : MachineState) : MachineState :=
  let w := s.memory.read s.pc
  let s := { s with pc := (s.pc + 1) % 65536 }
  let op := decodeOp w
  let dst := decodeDst w
  let src1 := decodeSrc1 w
  let src0 := decodeSrc0 w
  if op = 0 then do_jmp s dst src1 src0
  else if op = 1 then setReg s dst s.hi
  else if op = 2 then setReg s dst (src1 <<< 4 ||| src0)
  else if op = 3 then setReg s dst (s.memory.read (s.regs src0))
  else if op = 4 then { s with memory := s.memory.write (s.regs src0) (s.regs src1) }
  else if op = 5 then
    let c := (s.regs src0 + s.regs src1) % 4294967296
    { setReg s dst (c % 65536) with hi := c / 65536 }
  else if op = 6 then
    let c := (s.regs src0 + 4294967296 - s.regs src1) % 4294967296
    { setReg s dst (c % 65536) with hi := c / 65536 }
  else if op = 7 then
    let c := s.regs src0 * s.regs src1 % 4294967296
    { setReg s dst (c % 65536) with hi := c / 65536 }
  else if op = 8 then
    let c := if s.regs src1 = 0 then 4294967295 else s.regs src0 / s.regs src1
    { setReg s dst (c % 65536) with hi := c / 65536 }
  else if op = 9 then setReg s dst (s.regs src0 <<< src1)
  else if op = 10 then setReg s dst (s.regs src0 >>> src1)
  else if op = 11 then setReg s dst (s.regs src0 &&& s.regs src1)
  else if op = 12 then setReg s dst (s.regs src0 ||| s.regs src1)
  else if op = 13 then setReg s dst (65535 - s.regs src0 % 65536)
  else if op = 14 then do_bsr s dst src1 src0
  else if op = 15 then do_bsw s dst src1 src0
  else s

/-- One turn of the `while (!state.halt)` loop: the halt flag is tested
before any fetch happens. -/
def step (s : MachineState) : MachineState :=
  if s.halt then s else execInstr s

/-- Iterate `n` turns of the execution loop. -/
def run (s : MachineState) : Nat → MachineState
  | 0 => s
  | n + 1 => step (run s n)

/-- The state built by the `machine_state` constructor: everything zeroed,
halt down, the given disks attached, standard input still unread. -/
def resetState (d0 d1 : DiskController) (input : List Nat) : MachineState :=
  { pc := 0, hi := 0, regs := fun _ => 0, memory := MemoryAdapter.init,
    disk0 := d0, disk1 := d1, halt := false, input := input, output := [] }

/-! ## The command-line entry point -/

/-- Model of the exit code of `main`.  `argc` counts `argv[0]`; `arg1`, `arg2`
are the two disk paths when present; `fileExists` models
`std::filesystem::exists`; `runOk` is true when `execute` returns without
throwing.  The source prints a usage message and returns 0 when
`argc != 3`; returns 1 when a non-`--` path does not exist; returns 1 from
the `catch` block on a fatal error; and falls off the end of `main`
(exit code 0) on a normal halt. -/
def mainExitCode (argc : Nat) (arg1 arg2 : String) (fileExists : String → Bool)
    (runOk : Bool) : Nat :=
  if argc ≠ 3 then 0
  else if !((arg1 == "--") || fileExists arg1) || !((arg2 == "--") || fileExists arg2) then 1
  else if runOk then 0 else 1

/-! ## Concrete states used to instantiate the theorems -/

/-- A reset machine with no disks attached and standard input already closed. -/
def emptyBoot : MachineState :=
  resetState DiskController.absent DiskController.absent []

/-- A reset machine with one byte pending on standard input. -/
def byteBoot : MachineState :=
  resetState DiskController.absent DiskController.absent [65]

/-- A disk holding exactly one sector (so `sector_count = 1`) of zero bytes. -/
def bootDisk : DiskController := DiskController.attach 512 (fun _ => 0)

/-- A memory whose every RAM cell holds `0xABCD`. -/
def patternMem : MemoryAdapter := { ram := fun _ => 0xABCD }

/-- An attached disk whose transfer window wraps past address `0xFFFF`:
one sector, memory-address register `0xFFF8`. -/
def wrapDisk : DiskController :=
  { attached := true, sectorCount := 1, sector := 0, address := 0xFFF8, data := fun _ => 7 }

/-- A machine whose halt flag is already raised. -/
def haltedMachine : MachineState :=
  { resetState DiskController.absent DiskController.absent [] with halt := true }

/-- A machine about to execute `bsw` (word `0xF012` at pc 1000) with
register 2 holding port 7 and register 1 holding the value 0. -/
def zeroHaltWrite : MachineState :=
  { pc := 1000, hi := 0,
    regs := fun j => if j = 2 then 7 else 0,
    memory := MemoryAdapter.init.write 1000 0xF012,
    disk0 := DiskController.absent, disk1 := DiskController.absent,
    halt := false, input := [], output := [] }

/-! ## Basic lemmas about the memory adapter -/

theorem MemoryAdapter.read_write_self (m : MemoryAdapter) (a w : Nat) (h : 40 ≤ a) :
    (m.write a w).read a = w := by
  simp [MemoryAdapter.write, MemoryAdapter.read, ge_iff_le, h]

theorem MemoryAdapter.write_low (m : MemoryAdapter) (a w : Nat) (h : a < 40) :
    m.write a w = m := by
  simp only [MemoryAdapter.write, ge_iff_le]
  rw [if_neg (by omega)]

theorem MemoryAdapter.read_low (m : MemoryAdapter) (a : Nat) (h : a < 40) :
    m.read a = firmwareWord a := by
  simp only [MemoryAdapter.read, ge_iff_le]
  rw [if_neg (by omega)]

theorem MemoryAdapter.read_write_ne (m : MemoryAdapter) (a w t : Nat) (h : t ≠ a) :
    (m.write a w).read t = m.read t := by
  simp only [MemoryAdapter.write, MemoryAdapter.read, ge_iff_le]
  by_cases ha : 40 ≤ a
  · by_cases ht : 40 ≤ t
    · have hne : t - 40 ≠ a - 40 := by omega
      simp [ha, ht, hne]
    · simp [ha, ht]
  · simp [ha]

/-! ## Claim C3 -/

/-- Claim C3: a write below address 40 has no effect — reading there
returns the firmware image in every adapter state — while a write at or
above address 40 followed by a read of the same address returns the
written word. -/
theorem C3_rom_overlay (m : MemoryAdapter) (a w : Nat) :
    (a < 40 → (m.write a w).read a = firmwareWord a ∧ m.read a = firmwareWord a) ∧
    (40 ≤ a → a < 65536 → w < 65536 → (m.write a w).read a = w) := by
  constructor
  · intro h
    rw [m.write_low a w h]
    exact ⟨m.read_low a h, m.read_low a h⟩
  · intro h _ _
    exact m.read_write_self a w h

/-- Witness for C3 at ROM address 0 and RAM address 100. -/
theorem C3_rom_overlay_witness :
    ((MemoryAdapter.init.write 0 1234).read 0 = firmwareWord 0 ∧
      MemoryAdapter.init.read 0 = firmwareWord 0) ∧
    (MemoryAdapter.init.write 100 1234).read 100 = 1234 :=
  ⟨(C3_rom_overlay MemoryAdapter.init 0 1234).1 (by decide),
   (C3_rom_overlay MemoryAdapter.init 100 1234).2 (by decide) (by decide) (by decide)⟩

/-! ## Claim C5 -/

/-- Claim C5: for every machine state executing a jump instruction
(opcode 0), a non-zero guard register makes the destination receive the
post-increment program counter while the program counter is loaded from
the pre-execution source register (also when the destination aliases
either source register); a zero guard leaves all registers unchanged and
only the fetch increment happens. -/
theorem C5_jump_semantics (s : MachineState) (w : Nat)
    (hw : s.memory.read s.pc = w) (hop : decodeOp w = 0) :
    (s.regs (decodeSrc1 w) ≠ 0 →
      (execInstr s).regs (decodeDst w) = (s.pc + 1) % 65536 ∧
      (execInstr s).pc = s.regs (decodeSrc0 w)) ∧
    (s.regs (decodeSrc1 w) = 0 →
      (∀ i, (execInstr s).regs i = s.regs i) ∧
      (execInstr s).pc = (s.pc + 1) % 65536) := by
  constructor
  · intro hg
    simp only [execInstr, hw, hop]
    norm_num
    rw [do_jmp, if_pos]
    · constructor
      · simp only [setReg]
        norm_num [Nat.mod_mod_of_dvd]
      · simp [setReg]
    · simpa using hg
  · intro hg
    simp only [execInstr, hw, hop]
    norm_num
    rw [do_jmp, if_neg]
    · exact ⟨fun i => rfl, rfl⟩
    · simpa using hg

/-- Witness for C5: a taken jump from `zeroHaltWrite` patched to hold a
jump word, and an untaken jump from the reset machine (all registers
zero). -/
theorem C5_jump_semantics_witness :
    ((execInstr { zeroHaltWrite with memory := MemoryAdapter.init.write 1000 0x0522 }).regs 5 =
        1001 ∧
      (execInstr { zeroHaltWrite with memory := MemoryAdapter.init.write 1000 0x0522 }).pc = 7) ∧
    ((∀ i, (execInstr { emptyBoot with pc := 4 }).regs i = emptyBoot.regs i) → True) ∧
    (execInstr { emptyBoot with pc := 4 }).pc = ({ emptyBoot with pc := 4 }.pc + 1) % 65536 := by
  have h1 := (C5_jump_semantics { zeroHaltWrite with memory := MemoryAdapter.init.write 1000 0x0522 }
    0x0522 (by decide) (by decide)).1 (by decide)
  have h2 := (C5_jump_semantics { emptyBoot with pc := 4 } (firmwareWord 4) (by decide) ?_).2 ?_
  · refine ⟨?_, fun _ => trivial, h2.2⟩
    simpa using h1
  · decide
  · decide

/-! ## Claim C6 -/

/-- Claim C6: the divide opcode with a zero divisor register stores
`0xFFFF` in the destination and `0xFFFF` in `hi`; with a non-zero divisor
it stores the unsigned quotient in the destination and 0 in `hi`. -/
theorem C6_divide_semantics (s : MachineState) (w : Nat)
    (hw : s.memory.read s.pc = w) (hop : decodeOp w = 8)
    (ha : s.regs (decodeSrc0 w) < 65536) :
    (s.regs (decodeSrc1 w) = 0 →
      (execInstr s).regs (decodeDst w) = 0xFFFF ∧ (execInstr s).hi = 0xFFFF) ∧
    (s.regs (decodeSrc1 w) ≠ 0 →
      (execInstr s).regs (decodeDst w) =
        s.regs (decodeSrc0 w) / s.regs (decodeSrc1 w) ∧
      (execInstr s).hi = 0) := by
  constructor
  · intro hb
    simp only [execInstr, hw, hop]
    norm_num [hb, setReg]
  · intro hb
    have hq : s.regs (decodeSrc0 w) / s.regs (decodeSrc1 w) < 65536 :=
      lt_of_le_of_lt (Nat.div_le_self _ _) ha
    simp only [execInstr, hw, hop]
    norm_num [hb, setReg]
    constructor
    · omega
    · exact Nat.div_eq_of_lt hq

/-- Witness for C6: dividing 7 by 0 and 7 by 2 (the reset machine patched
with a divide word `0x8312` at pc 1000 and registers 1, 2 set). -/
theorem C6_divide_semantics_witness :
    ((execInstr
        { zeroHaltWrite with
          memory := MemoryAdapter.init.write 1000 0x8310,
          regs := fun j => if j = 0 then 7 else 0 }).regs 3 = 0xFFFF) ∧
    ((execInstr
        { zeroHaltWrite with
          memory := MemoryAdapter.init.write 1000 0x8310,
          regs := fun j => if j = 0 then 7 else if j = 1 then 2 else 0 }).regs 3 = 3) := by
  have h1 := (C6_divide_semantics
    { zeroHaltWrite with
      memory := MemoryAdapter.init.write 1000 0x8310,
      regs := fun j => if j = 0 then 7 else 0 }
    0x8310 (by decide) (by decide) (by decide)).1 (by decide)
  have h2 := (C6_divide_semantics
    { zeroHaltWrite with
      memory := MemoryAdapter.init.write 1000 0x8310,
      regs := fun j => if j = 0 then 7 else if j = 1 then 2 else 0 }
    0x8310 (by decide) (by decide) (by decide)).2 (by decide)
  exact ⟨h1.1, by simpa using h2.1⟩

/-! ## Claim C7 -/

/-- Claim C7 counterexample: a bus read of port 0 at end of input stores
`0xFF` (the low byte of `EOF`), not the sentinel `0xFFFF` the claim
states. -/
theorem C7_eof_counterexample :
    (do_bsr emptyBoot 3 0 0).regs 3 = 0xFF ∧
    (do_bsr emptyBoot 3 0 0).regs 3 ≠ 0xFFFF := by
  decide

/-- Claim C7 (amended): a bus read of port 0 at end of input stores
`0x00FF` — `std::cin.get()` yields `EOF` = -1 and the source masks it with
`& 0xff` — and with byte `b` pending it stores `b` zero-extended. -/
theorem C7_serial_input_amended (s : MachineState) (dst src1 src0 : Nat)
    (hp : s.regs src0 = 0) :
    (s.input = [] → (do_bsr s dst src1 src0).regs dst = 0xFF) ∧
    (∀ b rest, s.input = b :: rest → b < 256 →
      (do_bsr s dst src1 src0).regs dst = b) := by
  constructor
  · intro hin
    simp [do_bsr, hp, hin, setReg]
  · intro b rest hin hb
    have h1 : b % 256 = b := Nat.mod_eq_of_lt hb
    have h2 : b % 65536 = b := Nat.mod_eq_of_lt (by omega)
    simp [do_bsr, hp, hin, setReg, h1, h2]

/-- Witness for C7: the amended behaviour at end of input and with the
byte 65 pending. -/
theorem C7_serial_input_amended_witness :
    (do_bsr emptyBoot 4 0 0).regs 4 = 0xFF ∧ (do_bsr byteBoot 4 0 0).regs 4 = 65 :=
  ⟨(C7_serial_input_amended emptyBoot 4 0 0 rfl).1 rfl,
   (C7_serial_input_amended byteBoot 4 0 0 rfl).2 65 [] rfl (by norm_num)⟩

/-! ## Claim C9 -/

/-- Claim C9: the loop tests the halt flag before every fetch, so no
instruction executes from a halted state; once the flag is raised the
machine state is final; and a bus write of the value 0 to port 7 from a
(necessarily non-halted) fetching state leaves the flag down. -/
theorem C9_halt_latch (s : MachineState) (n m : Nat) (w : Nat) :
    (s.halt = true → step s = s) ∧
    (n ≤ m → (run s n).halt = true → run s m = run s n) ∧
    (s.halt = false → s.memory.read s.pc = w → decodeOp w = 15 →
      s.regs (decodeSrc0 w) = 7 → s.regs (decodeSrc1 w) = 0 →
      (step s).halt = false) := by
  refine ⟨fun h => by simp [step, h], ?_, ?_⟩
  · intro hnm hh
    induction hnm with
    | refl => rfl
    | step h ih =>
        simp only [run]
        rw [ih]
        simp [step, hh]
  · intro hhalt hw hop hport hword
    simp only [step, hhalt]
    norm_num
    simp only [execInstr, hw, hop]
    norm_num
    simp [do_bsw, hport, hword]

/-- Witness for C9: a halted machine is a fixed point of `step` and of
`run`, and `zeroHaltWrite` (which bus-writes 0 to port 7) stays
un-halted. -/
theorem C9_halt_latch_witness :
    step haltedMachine = haltedMachine ∧
    run haltedMachine 2 = run haltedMachine 1 ∧
    (step zeroHaltWrite).halt = false :=
  ⟨(C9_halt_latch haltedMachine 0 0 0).1 rfl,
   (C9_halt_latch haltedMachine 1 2 0).2.1 (by norm_num) (by decide),
   (C9_halt_latch zeroHaltWrite 0 0 0xF012).2.2 rfl (by decide) (by decide)
     (by decide) (by decide)⟩

/-! ## Claim C4 -/

theorem decodeOp_le (w : Nat) : decodeOp w ≤ 15 := by
  have h1 : w &&& 0xF000 ≤ 0xF000 := Nat.and_le_right
  calc decodeOp w = (w &&& 0xF000) / 4096 := by
        simp [decodeOp, Nat.shiftRight_eq_div_pow]
    _ ≤ 0xF000 / 4096 := Nat.div_le_div_right h1
    _ = 15 := by norm_num

theorem setReg_hi (s : MachineState) (i v : Nat) : (setReg s i v).hi = s.hi := rfl

theorem do_jmp_hi (s : MachineState) (a b c : Nat) : (do_jmp s a b c).hi = s.hi := by
  unfold do_jmp
  split <;> rfl

theorem do_bsr_hi (s : MachineState) (a b c : Nat) : (do_bsr s a b c).hi = s.hi := by
  simp only [do_bsr]
  repeat' split
  all_goals rfl

theorem do_bsw_hi (s : MachineState) (a b c : Nat) : (do_bsw s a b c).hi = s.hi := by
  simp only [do_bsw]
  repeat' split
  all_goals rfl

/-- Claim C4: after an add, subtract, multiply or divide, `hi` holds the
high 16 bits of the 32-bit result of that operation (rendered in closed
form for 16-bit operands: the carry for add, 0 or `0xFFFF` by borrow for
subtract, the upper product half for multiply, 0 or the `0xFFFF` tombstone
for divide); every other opcode leaves `hi` unchanged. -/
theorem C4_hi_discipline (s : MachineState) (w : Nat)
    (hw : s.memory.read s.pc = w)
    (hra : s.regs (decodeSrc0 w) < 65536) (hrb : s.regs (decodeSrc1 w) < 65536) :
    (decodeOp w = 5 →
      (execInstr s).hi = (s.regs (decodeSrc0 w) + s.regs (decodeSrc1 w)) / 65536) ∧
    (decodeOp w = 6 →
      (execInstr s).hi =
        if s.regs (decodeSrc1 w) ≤ s.regs (decodeSrc0 w) then 0 else 0xFFFF) ∧
    (decodeOp w = 7 →
      (execInstr s).hi = s.regs (decodeSrc0 w) * s.regs (decodeSrc1 w) / 65536) ∧
    (decodeOp w = 8 →
      (execInstr s).hi = if s.regs (decodeSrc1 w) = 0 then 0xFFFF else 0) ∧
    (decodeOp w ≠ 5 → decodeOp w ≠ 6 → decodeOp w ≠ 7 → decodeOp w ≠ 8 →
      (execInstr s).hi = s.hi) := by
  have h15 := decodeOp_le w
  refine ⟨?_, ?_, ?_, ?_, ?_⟩
  · intro hop
    simp only [execInstr, hw, hop]
    norm_num
    omega
  · intro hop
    simp only [execInstr, hw, hop]
    norm_num
    split <;> omega
  · intro hop
    simp only [execInstr, hw, hop]
    norm_num
    have hm : s.regs (decodeSrc0 w) * s.regs (decodeSrc1 w) < 4294967296 := by
      calc s.regs (decodeSrc0 w) * s.regs (decodeSrc1 w) ≤ 65535 * 65535 := by
            exact Nat.mul_le_mul (by omega) (by omega)
        _ < 4294967296 := by norm_num
    rw [Nat.mod_eq_of_lt hm]
  · intro hop
    simp only [execInstr, hw, hop]
    norm_num
    split
    · norm_num
    · have hq : s.regs (decodeSrc0 w) / s.regs (decodeSrc1 w) < 65536 :=
        lt_of_le_of_lt (Nat.div_le_self _ _) hra
      exact Nat.div_eq_of_lt hq
  · intro h5 h6 h7 h8
    have : decodeOp w = 0 ∨ decodeOp w = 1 ∨ decodeOp w = 2 ∨ decodeOp w = 3 ∨
        decodeOp w = 4 ∨ decodeOp w = 9 ∨ decodeOp w = 10 ∨ decodeOp w = 11 ∨
        decodeOp w = 12 ∨ decodeOp w = 13 ∨ decodeOp w = 14 ∨ decodeOp w = 15 := by
      omega
    rcases this with h | h | h | h | h | h | h | h | h | h | h | h <;>
      simp [execInstr, hw, h, do_jmp_hi, do_bsr_hi, do_bsw_hi, setReg_hi]

/-- Witness for C4: an add with carry (40000 + 40000) leaves `hi` = 1, and
a set instruction leaves `hi` unchanged. -/
theorem C4_hi_discipline_witness :
    (execInstr
      { zeroHaltWrite with
        memory := MemoryAdapter.init.write 1000 0x5301,
        regs := fun j => if j ≤ 1 then 40000 else 0 }).hi =
      (40000 + 40000) / 65536 ∧
    (execInstr { zeroHaltWrite with memory := MemoryAdapter.init.write 1000 0x2001 }).hi =
      zeroHaltWrite.hi := by
  have h1 := (C4_hi_discipline
    { zeroHaltWrite with
      memory := MemoryAdapter.init.write 1000 0x5301,
      regs := fun j => if j ≤ 1 then 40000 else 0 }
    0x5301 (by decide) (by decide) (by decide)).1 (by decide)
  have h2 := (C4_hi_discipline
    { zeroHaltWrite with memory := MemoryAdapter.init.write 1000 0x2001 }
    0x2001 (by decide) (by decide) (by decide)).2.2.2.2
    (by decide) (by decide) (by decide) (by decide)
  exact ⟨by simpa using h1, h2⟩

/-! ## Claim C10 -/

theorem key_inj (A j k : Nat) (hj : j < 65536) (hk : k < 65536)
    (h : (A + j) % 65536 = (A + k) % 65536) : j = k := by
  omega

theorem diskReadLoop_read_frame (d : DiskController) (t : Nat) :
    ∀ fuel i m, (∀ j, i ≤ j → j < i + fuel → t ≠ (d.address + j) % 65536) →
      (diskReadLoop d m i fuel).read t = m.read t
  | 0, i, m, _ => rfl
  | fuel + 1, i, m, h => by
      simp only [diskReadLoop]
      rw [diskReadLoop_read_frame d t fuel (i + 1) _ ?_]
      · exact MemoryAdapter.read_write_ne _ _ _ _ (h i le_rfl (by omega))
      · intro j h1 h2
        exact h j (by omega) (by omega)

theorem diskReadLoop_read_hit (d : DiskController) (k : Nat) :
    ∀ fuel i m, i ≤ k → k < i + fuel →
      (∀ j, k < j → j < i + fuel → (d.address + j) % 65536 ≠ (d.address + k) % 65536) →
      40 ≤ (d.address + k) % 65536 →
      (diskReadLoop d m i fuel).read ((d.address + k) % 65536) = sectorWord d k
  | 0, i, m, h1, h2, _, _ => absurd h2 (by omega)
  | fuel + 1, i, m, h1, h2, hdist, h40 => by
      simp only [diskReadLoop]
      rcases Nat.eq_or_lt_of_le h1 with he | hlt
      · subst he
        rw [diskReadLoop_read_frame d _ fuel (i + 1) _ ?_]
        · exact MemoryAdapter.read_write_self _ _ _ h40
        · intro j hj1 hj2
          exact (hdist j (by omega) (by omega)).symm
      · exact diskReadLoop_read_hit d k fuel (i + 1) _ (by omega) (by omega)
          (fun j a b => hdist j a (by omega)) h40

/-- Claim C10: a disk read command on an attached controller with
`sector < sector_count` writes the `i`-th transferred word (i < 256) to
memory address `(address + i) mod 2^16` — a window running past `0xFFFF`
wraps to low memory, where words landing in the firmware region are
dropped by the adapter (a read there still returns the firmware) — and no
address outside the 256-word window is affected. -/
theorem C10_disk_read_wraps (d : DiskController) (m : MemoryAdapter) (i : Nat)
    (hatt : d.attached = true) (hsec : d.sector < d.sectorCount) (hilt : i < 256) :
    (40 ≤ (d.address + i) % 65536 →
      ((do_disk_operation d m 0).2).read ((d.address + i) % 65536) = sectorWord d i) ∧
    ((d.address + i) % 65536 < 40 →
      ((do_disk_operation d m 0).2).read ((d.address + i) % 65536) =
        firmwareWord ((d.address + i) % 65536)) ∧
    (∀ t, 40 ≤ t → (∀ j, j < 256 → t ≠ (d.address + j) % 65536) →
      ((do_disk_operation d m 0).2).read t = m.read t) := by
  have hdd : (do_disk_operation d m 0).2 = diskReadLoop d m 0 256 := by
    unfold do_disk_operation
    rw [if_neg (by simp [hatt]), if_pos rfl, if_pos hsec]
  refine ⟨?_, ?_, ?_⟩
  · intro h40
    rw [hdd]
    refine diskReadLoop_read_hit d i 256 0 m (Nat.zero_le i) (by omega) ?_ h40
    intro j hj1 hj2 heq
    have := key_inj d.address j i (by omega) (by omega) heq
    omega
  · intro h40
    rw [hdd]
    exact MemoryAdapter.read_low _ _ h40
  · intro t ht hmiss
    rw [hdd]
    exact diskReadLoop_read_frame d t 256 0 m (fun j h1 h2 => hmiss j (by omega))

set_option maxRecDepth 4000 in
/-- Witness for C10 on `wrapDisk` (window `0xFFF8..0xF7` wrapping through
the firmware region): word 7 lands at `0xFFFF`, word 8 would land at
address 0 where the firmware still reads back, and address 500 is
untouched. -/
theorem C10_disk_read_wraps_witness :
    ((do_disk_operation wrapDisk MemoryAdapter.init 0).2).read 65535 = sectorWord wrapDisk 7 ∧
    ((do_disk_operation wrapDisk MemoryAdapter.init 0).2).read 0 = firmwareWord 0 ∧
    ((do_disk_operation wrapDisk MemoryAdapter.init 0).2).read 500 =
      MemoryAdapter.init.read 500 := by
  have h1 := (C10_disk_read_wraps wrapDisk MemoryAdapter.init 7 rfl (by decide) (by decide)).1
  have h2 := (C10_disk_read_wraps wrapDisk MemoryAdapter.init 8 rfl (by decide) (by decide)).2.1
  have h3 := (C10_disk_read_wraps wrapDisk MemoryAdapter.init 0 rfl (by decide) (by decide)).2.2
  refine ⟨?_, ?_, h3 500 (by decide) (by decide)⟩
  · have := h1 (by decide)
    simpa using this
  · have := h2 (by decide)
    simpa using this

/-! ## Claim C1 -/

theorem diskWriteLoop_data_frame (m : MemoryAdapter) (o : Nat) :
    ∀ fuel i (d : DiskController),
      (∀ j, i ≤ j → j < i + fuel →
        o ≠ 512 * d.sector + 2 * j ∧ o ≠ 512 * d.sector + 2 * j + 1) →
      (diskWriteLoop d m i fuel).data o = d.data o
  | 0, i, d, _ => rfl
  | fuel + 1, i, d, h => by
      simp only [diskWriteLoop]
      rw [diskWriteLoop_data_frame m o fuel (i + 1) _ ?_]
      · have h0 := h i le_rfl (by omega)
        simp only
        rw [if_neg h0.2, if_neg h0.1]
      · intro j hj1 hj2
        simp only
        exact h j (by omega) (by omega)

theorem diskWriteLoop_data_hit (m : MemoryAdapter) (k : Nat) :
    ∀ fuel i (d : DiskController), i ≤ k → k < i + fuel →
      (diskWriteLoop d m i fuel).data (512 * d.sector + 2 * k + 1) =
        m.read ((d.address + k) % 65536) % 256 ∧
      (diskWriteLoop d m i fuel).data (512 * d.sector + 2 * k) =
        m.read ((d.address + k) % 65536) / 256 % 256
  | 0, i, d, h1, h2 => absurd h2 (by omega)
  | fuel + 1, i, d, h1, h2 => by
      simp only [diskWriteLoop]
      rcases Nat.eq_or_lt_of_le h1 with he | hlt
      · subst he
        constructor
        · rw [diskWriteLoop_data_frame m _ fuel (i + 1) _ ?_]
          · simp
          · intro j hj1 hj2
            simp only
            omega
        · rw [diskWriteLoop_data_frame m _ fuel (i + 1) _ ?_]
          · simp only
            rw [if_neg (by omega)]
            simp
          · intro j hj1 hj2
            simp only
            omega
      · have := diskWriteLoop_data_hit m k fuel (i + 1)
          { d with
            data := fun o =>
              if o = 512 * d.sector + 2 * i + 1 then m.read ((d.address + i) % 65536) % 256
              else if o = 512 * d.sector + 2 * i then
                m.read ((d.address + i) % 65536) / 256 % 256
              else d.data o }
          (by omega) (by omega)
        simpa using this

/-- Claim C1 (refuting evaluation): the write command on an attached
controller with `sector = 0 < sector_count` modifies the disk file at byte
offset 1023 — the loop runs 512 iterations, emitting 1024 bytes, one full
sector beyond the 512 bytes the claim (and the spec) allow.  With every
RAM word equal to `0xABCD`, offset 1023 receives the low byte `0xCD` of
the word read at memory address `address + 511`, although the byte was 0
before the command. -/
theorem C1_write_command_overruns :
    (do_disk_operation bootDisk patternMem 1).1.data 1023 = 0xCD ∧
    bootDisk.data 1023 = 0 := by
  constructor
  · have h := (diskWriteLoop_data_hit patternMem 511 512 0 bootDisk (by norm_num)
      (by norm_num)).1
    have hd : do_disk_operation bootDisk patternMem 1 =
        (diskWriteLoop bootDisk patternMem 0 512, patternMem) := by
      unfold do_disk_operation
      rw [if_neg (by decide), if_neg (by decide), if_pos rfl, if_pos (by decide)]
    rw [hd]
    have hsec : bootDisk.sector = 0 := rfl
    have haddr : bootDisk.address = 0 := rfl
    rw [hsec, haddr] at h
    norm_num at h
    have hr : patternMem.read 511 = 0xABCD := rfl
    rw [hr] at h
    simpa using h
  · rfl

/-! ## Claim C2 -/

theorem fwWord0 : firmwareWord 0 = 0x2001 := rfl
theorem fwWord1 : firmwareWord 1 = 0xEB00 := rfl
theorem fwWord2 : firmwareWord 2 = 0x2B28 := rfl
theorem fwWord3 : firmwareWord 3 = 0x2108 := rfl
theorem fwWord4 : firmwareWord 4 = 0x0201 := rfl
theorem fwWord8 : firmwareWord 8 = 0xF0C0 := rfl
theorem fwWord9 : firmwareWord 9 = 0x00BB := rfl
theorem fwWordA : firmwareWord 0xA = 0xE20C := rfl

theorem decOpx2001 : decodeOp 0x2001 = 2 := by decide
theorem decDstx2001 : decodeDst 0x2001 = 0 := by decide
theorem decS1x2001 : decodeSrc1 0x2001 = 0 := by decide
theorem decS0x2001 : decodeSrc0 0x2001 = 1 := by decide
theorem decOpxEB00 : decodeOp 0xEB00 = 14 := by decide
theorem decDstxEB00 : decodeDst 0xEB00 = 11 := by decide
theorem decS1xEB00 : decodeSrc1 0xEB00 = 0 := by decide
theorem decS0xEB00 : decodeSrc0 0xEB00 = 0 := by decide
theorem decOpx2B28 : decodeOp 0x2B28 = 2 := by decide
theorem decDstx2B28 : decodeDst 0x2B28 = 11 := by decide
theorem decS1x2B28 : decodeSrc1 0x2B28 = 2 := by decide
theorem decS0x2B28 : decodeSrc0 0x2B28 = 8 := by decide
theorem decOpx2108 : decodeOp 0x2108 = 2 := by decide
theorem decDstx2108 : decodeDst 0x2108 = 1 := by decide
theorem decS1x2108 : decodeSrc1 0x2108 = 0 := by decide
theorem decS0x2108 : decodeSrc0 0x2108 = 8 := by decide
theorem decOpx0201 : decodeOp 0x0201 = 0 := by decide
theorem decDstx0201 : decodeDst 0x0201 = 2 := by decide
theorem decS1x0201 : decodeSrc1 0x0201 = 0 := by decide
theorem decS0x0201 : decodeSrc0 0x0201 = 1 := by decide
theorem decOpxF0C0 : decodeOp 0xF0C0 = 15 := by decide
theorem decDstxF0C0 : decodeDst 0xF0C0 = 0 := by decide
theorem decS1xF0C0 : decodeSrc1 0xF0C0 = 12 := by decide
theorem decS0xF0C0 : decodeSrc0 0xF0C0 = 0 := by decide
theorem decOpx00BB : decodeOp 0x00BB = 0 := by decide
theorem decDstx00BB : decodeDst 0x00BB = 0 := by decide
theorem decS1x00BB : decodeSrc1 0x00BB = 11 := by decide
theorem decS0x00BB : decodeSrc0 0x00BB = 11 := by decide
theorem decOpx0000 : decodeOp 0x0000 = 0 := by decide
theorem decDstx0000 : decodeDst 0x0000 = 0 := by decide
theorem decS1x0000 : decodeSrc1 0x0000 = 0 := by decide
theorem decS0x0000 : decodeSrc0 0x0000 = 0 := by decide
theorem decOpxE20C : decodeOp 0xE20C = 14 := by decide
theorem decDstxE20C : decodeDst 0xE20C = 2 := by decide
theorem decS1xE20C : decodeSrc1 0xE20C = 0 := by decide
theorem decS0xE20C : decodeSrc0 0xE20C = 12 := by decide

theorem do_disk_operation_read_fst (d : DiskController) (m : MemoryAdapter) :
    (do_disk_operation d m 0).1 = d := by
  unfold do_disk_operation
  by_cases h1 : d.attached = false
  · rw [if_pos h1]
  · rw [if_neg h1, if_pos rfl]
    by_cases h2 : d.sector < d.sectorCount
    · rw [if_pos h2]
    · rw [if_neg h2]

theorem do_disk_operation_noop (d : DiskController) (m : MemoryAdapter) (control : Nat)
    (h : d.attached = false ∨ d.sectorCount = 0) :
    do_disk_operation d m control = (d, m) := by
  unfold do_disk_operation
  rcases h with h | h
  · simp [h]
  · simp [h]

theorem step_set_facts (s : MachineState) (w dst imm : Nat) (hhalt : s.halt = false)
    (hw : s.memory.read s.pc = w) (hop : decodeOp w = 2) (hdst : decodeDst w = dst)
    (himm : decodeSrc1 w <<< 4 ||| decodeSrc0 w = imm) :
    (step s).pc = (s.pc + 1) % 65536 ∧ (step s).halt = false ∧
    (step s).memory = s.memory ∧ (step s).disk0 = s.disk0 ∧
    (step s).input = s.input ∧ (step s).regs dst = imm % 65536 ∧
    (∀ j, j ≠ dst → (step s).regs j = s.regs j) := by
  have h : step s = setReg { s with pc := (s.pc + 1) % 65536 } dst imm := by
    simp only [step, hhalt, Bool.false_eq_true, if_false, execInstr, hw, hop, hdst, himm]
    norm_num
  rw [h]
  refine ⟨by simp [setReg], by simp [setReg, hhalt], by simp [setReg], by simp [setReg],
    by simp [setReg], by simp [setReg], fun j hj => by simp [setReg, hj]⟩

theorem step_bsr_port1_facts (s : MachineState) (w dst src1 src0 : Nat)
    (hhalt : s.halt = false) (hw : s.memory.read s.pc = w) (hop : decodeOp w = 14)
    (hdst : decodeDst w = dst) (hs1 : decodeSrc1 w = src1) (hs0 : decodeSrc0 w = src0)
    (hp : s.regs src0 = 1) :
    (step s).pc = (s.pc + 1) % 65536 ∧ (step s).halt = false ∧
    (step s).memory = s.memory ∧ (step s).disk0 = s.disk0 ∧
    (step s).input = s.input ∧
    (∀ j, j ≠ dst → (step s).regs j = s.regs j) := by
  have h : step s = setReg { s with pc := (s.pc + 1) % 65536 } dst s.disk0.sectorCount := by
    simp only [step, hhalt, Bool.false_eq_true, if_false, execInstr, hw, hop, hdst, hs1, hs0]
    norm_num
    simp [do_bsr, hp]
  rw [h]
  refine ⟨by simp [setReg], by simp [setReg, hhalt], by simp [setReg], by simp [setReg],
    by simp [setReg], fun j hj => by simp [setReg, hj]⟩

theorem step_bsw_port1_facts (s : MachineState) (w dst src1 src0 : Nat)
    (hhalt : s.halt = false) (hw : s.memory.read s.pc = w) (hop : decodeOp w = 15)
    (hdst : decodeDst w = dst) (hs1 : decodeSrc1 w = src1) (hs0 : decodeSrc0 w = src0)
    (hp : s.regs src0 = 1) :
    (step s).pc = (s.pc + 1) % 65536 ∧ (step s).halt = false ∧
    (step s).memory = (do_disk_operation s.disk0 s.memory (s.regs src1)).2 ∧
    (step s).disk0 = (do_disk_operation s.disk0 s.memory (s.regs src1)).1 ∧
    (step s).input = s.input ∧
    (∀ j, (step s).regs j = s.regs j) := by
  have h : step s =
      { s with pc := (s.pc + 1) % 65536,
               memory := (do_disk_operation s.disk0 s.memory (s.regs src1)).2,
               disk0 := (do_disk_operation s.disk0 s.memory (s.regs src1)).1 } := by
    simp only [step, hhalt, Bool.false_eq_true, if_false, execInstr, hw, hop, hdst, hs1, hs0]
    norm_num
    simp [do_bsw, hp]
  rw [h]
  exact ⟨rfl, hhalt, rfl, rfl, rfl, fun j => rfl⟩

theorem step_jmp_taken_facts (s : MachineState) (w dst src1 src0 : Nat)
    (hhalt : s.halt = false) (hw : s.memory.read s.pc = w) (hop : decodeOp w = 0)
    (hdst : decodeDst w = dst) (hs1 : decodeSrc1 w = src1) (hs0 : decodeSrc0 w = src0)
    (hg : s.regs src1 ≠ 0) :
    (step s).pc = s.regs src0 ∧ (step s).halt = false ∧
    (step s).memory = s.memory ∧ (step s).disk0 = s.disk0 ∧
    (step s).input = s.input ∧ (step s).regs dst = (s.pc + 1) % 65536 ∧
    (∀ j, j ≠ dst → (step s).regs j = s.regs j) := by
  have h : step s = setReg { s with pc := s.regs src0 } dst ((s.pc + 1) % 65536) := by
    simp only [step, hhalt, Bool.false_eq_true, if_false, execInstr, hw, hop, hdst, hs1, hs0]
    norm_num
    simp [do_jmp, hg]
  rw [h]
  refine ⟨by simp [setReg], by simp [setReg, hhalt], by simp [setReg], by simp [setReg],
    by simp [setReg], by simp [setReg], fun j hj => by simp [setReg, hj]⟩

set_option maxRecDepth 10000 in
/-- Claim C2 counterexample: booting with no (or an empty) disk0, the
machine does reach the serial-wait loop — the program counter first hits
`0xA` after 8 steps — but the 8th step fetched its instruction from RAM
address `0x28`, outside the 40-word firmware region, so the wait loop is
not reached "without executing guest code". -/
theorem C2_boot_counterexample :
    (∀ k, k < 8 → (run emptyBoot k).pc ≠ 0xA) ∧
    (run emptyBoot 8).pc = 0xA ∧
    (run emptyBoot 7).pc = 0x28 ∧
    ¬ (run emptyBoot 7).pc < 40 ∧
    (run emptyBoot 7).halt = false := by
  decide

/-- The first seven steps of every boot: the firmware reads the size
port, sets up registers, unconditionally takes the branch at address 4 to
the boot shim at address 8, issues disk command 0 to disk0, and jumps to
`0x28`; stated as the projections of `run 7` needed downstream. -/
theorem boot_run7 (d0 d1 : DiskController) (input : List Nat) :
    (run (resetState d0 d1 input) 7).pc = 0x28 ∧
    (run (resetState d0 d1 input) 7).memory =
      (do_disk_operation d0 MemoryAdapter.init 0).2 ∧
    (run (resetState d0 d1 input) 7).disk0 =
      (do_disk_operation d0 MemoryAdapter.init 0).1 ∧
    (run (resetState d0 d1 input) 7).halt = false ∧
    (run (resetState d0 d1 input) 7).regs 0 = 0xA ∧
    (run (resetState d0 d1 input) 7).regs 12 = 0 ∧
    (run (resetState d0 d1 input) 7).input = input := by
  -- step 1: 0x2001, set r0 <- 1
  have r1 : run (resetState d0 d1 input) 1 = step (resetState d0 d1 input) := rfl
  obtain ⟨q1pc, q1halt, q1mem, q1d0, q1in, q1rd, q1ro⟩ :=
    step_set_facts (resetState d0 d1 input) 0x2001 0 1 rfl rfl
      (by decide) (by decide) (by decide)
  have p1pc : (run (resetState d0 d1 input) 1).pc = 1 := by rw [r1, q1pc] <;> try rfl
  have p1halt : (run (resetState d0 d1 input) 1).halt = false := by rw [r1, q1halt] <;> try rfl
  have p1mem : (run (resetState d0 d1 input) 1).memory = MemoryAdapter.init := by
    rw [r1, q1mem] <;> try rfl
  have p1d0 : (run (resetState d0 d1 input) 1).disk0 = d0 := by rw [r1, q1d0] <;> try rfl
  have p1in : (run (resetState d0 d1 input) 1).input = input := by rw [r1, q1in] <;> try rfl
  have p1r0 : (run (resetState d0 d1 input) 1).regs 0 = 1 := by rw [r1, q1rd] <;> try rfl
  have p1r12 : (run (resetState d0 d1 input) 1).regs 12 = 0 := by
    rw [r1, q1ro 12 (by decide)] <;> try rfl
  -- step 2: 0xEB00, bsr r11 <- bus[r0 = 1] (disk0 size)
  have r2 : run (resetState d0 d1 input) 2 = step (run (resetState d0 d1 input) 1) := rfl
  have hw2 : (run (resetState d0 d1 input) 1).memory.read
      (run (resetState d0 d1 input) 1).pc = 0xEB00 := by
    rw [p1mem, p1pc]; decide
  obtain ⟨q2pc, q2halt, q2mem, q2d0, q2in, q2ro⟩ :=
    step_bsr_port1_facts (run (resetState d0 d1 input) 1) 0xEB00 11 0 0 p1halt hw2
      (by decide) (by decide) (by decide) (by decide) p1r0
  have p2pc : (run (resetState d0 d1 input) 2).pc = 2 := by
    rw [r2, q2pc, p1pc] <;> try rfl
  have p2halt : (run (resetState d0 d1 input) 2).halt = false := by rw [r2, q2halt] <;> try rfl
  have p2mem : (run (resetState d0 d1 input) 2).memory = MemoryAdapter.init := by
    rw [r2, q2mem, p1mem] <;> try rfl
  have p2d0 : (run (resetState d0 d1 input) 2).disk0 = d0 := by rw [r2, q2d0, p1d0] <;> try rfl
  have p2in : (run (resetState d0 d1 input) 2).input = input := by rw [r2, q2in, p1in] <;> try rfl
  have p2r0 : (run (resetState d0 d1 input) 2).regs 0 = 1 := by
    rw [r2, q2ro 0 (by decide), p1r0] <;> try rfl
  have p2r12 : (run (resetState d0 d1 input) 2).regs 12 = 0 := by
    rw [r2, q2ro 12 (by decide), p1r12] <;> try rfl
  -- step 3: 0x2B28, set r11 <- 0x28
  have r3 : run (resetState d0 d1 input) 3 = step (run (resetState d0 d1 input) 2) := rfl
  have hw3 : (run (resetState d0 d1 input) 2).memory.read
      (run (resetState d0 d1 input) 2).pc = 0x2B28 := by
    rw [p2mem, p2pc]; decide
  obtain ⟨q3pc, q3halt, q3mem, q3d0, q3in, q3rd, q3ro⟩ :=
    step_set_facts (run (resetState d0 d1 input) 2) 0x2B28 11 40 p2halt hw3
      (by decide) (by decide) (by decide)
  have p3pc : (run (resetState d0 d1 input) 3).pc = 3 := by rw [r3, q3pc, p2pc] <;> try rfl
  have p3halt : (run (resetState d0 d1 input) 3).halt = false := by rw [r3, q3halt] <;> try rfl
  have p3mem : (run (resetState d0 d1 input) 3).memory = MemoryAdapter.init := by
    rw [r3, q3mem, p2mem] <;> try rfl
  have p3d0 : (run (resetState d0 d1 input) 3).disk0 = d0 := by rw [r3, q3d0, p2d0] <;> try rfl
  have p3in : (run (resetState d0 d1 input) 3).input = input := by rw [r3, q3in, p2in] <;> try rfl
  have p3r0 : (run (resetState d0 d1 input) 3).regs 0 = 1 := by
    rw [r3, q3ro 0 (by decide), p2r0] <;> try rfl
  have p3r11 : (run (resetState d0 d1 input) 3).regs 11 = 40 := by rw [r3, q3rd] <;> try rfl
  have p3r12 : (run (resetState d0 d1 input) 3).regs 12 = 0 := by
    rw [r3, q3ro 12 (by decide), p2r12] <;> try rfl
  -- step 4: 0x2108, set r1 <- 8
  have r4 : run (resetState d0 d1 input) 4 = step (run (resetState d0 d1 input) 3) := rfl
  have hw4 : (run (resetState d0 d1 input) 3).memory.read
      (run (resetState d0 d1 input) 3).pc = 0x2108 := by
    rw [p3mem, p3pc]; decide
  obtain ⟨q4pc, q4halt, q4mem, q4d0, q4in, q4rd, q4ro⟩ :=
    step_set_facts (run (resetState d0 d1 input) 3) 0x2108 1 8 p3halt hw4
      (by decide) (by decide) (by decide)
  have p4pc : (run (resetState d0 d1 input) 4).pc = 4 := by rw [r4, q4pc, p3pc] <;> try rfl
  have p4halt : (run (resetState d0 d1 input) 4).halt = false := by rw [r4, q4halt] <;> try rfl
  have p4mem : (run (resetState d0 d1 input) 4).memory = MemoryAdapter.init := by
    rw [r4, q4mem, p3mem] <;> try rfl
  have p4d0 : (run (resetState d0 d1 input) 4).disk0 = d0 := by rw [r4, q4d0, p3d0] <;> try rfl
  have p4in : (run (resetState d0 d1 input) 4).input = input := by rw [r4, q4in, p3in] <;> try rfl
  have p4r0 : (run (resetState d0 d1 input) 4).regs 0 = 1 := by
    rw [r4, q4ro 0 (by decide), p3r0] <;> try rfl
  have p4r1 : (run (resetState d0 d1 input) 4).regs 1 = 8 := by rw [r4, q4rd] <;> try rfl
  have p4r11 : (run (resetState d0 d1 input) 4).regs 11 = 40 := by
    rw [r4, q4ro 11 (by decide), p3r11] <;> try rfl
  have p4r12 : (run (resetState d0 d1 input) 4).regs 12 = 0 := by
    rw [r4, q4ro 12 (by decide), p3r12] <;> try rfl
  -- step 5: 0x0201, jmp r2, r0, r1 (taken: r0 = 1)
  have r5 : run (resetState d0 d1 input) 5 = step (run (resetState d0 d1 input) 4) := rfl
  have hw5 : (run (resetState d0 d1 input) 4).memory.read
      (run (resetState d0 d1 input) 4).pc = 0x0201 := by
    rw [p4mem, p4pc]; decide
  obtain ⟨q5pc, q5halt, q5mem, q5d0, q5in, q5rd, q5ro⟩ :=
    step_jmp_taken_facts (run (resetState d0 d1 input) 4) 0x0201 2 0 1 p4halt hw5
      (by decide) (by decide) (by decide) (by decide) (by rw [p4r0]; decide)
  have p5pc : (run (resetState d0 d1 input) 5).pc = 8 := by rw [r5, q5pc, p4r1] <;> try rfl
  have p5halt : (run (resetState d0 d1 input) 5).halt = false := by rw [r5, q5halt] <;> try rfl
  have p5mem : (run (resetState d0 d1 input) 5).memory = MemoryAdapter.init := by
    rw [r5, q5mem, p4mem] <;> try rfl
  have p5d0 : (run (resetState d0 d1 input) 5).disk0 = d0 := by rw [r5, q5d0, p4d0] <;> try rfl
  have p5in : (run (resetState d0 d1 input) 5).input = input := by rw [r5, q5in, p4in] <;> try rfl
  have p5r0 : (run (resetState d0 d1 input) 5).regs 0 = 1 := by
    rw [r5, q5ro 0 (by decide), p4r0] <;> try rfl
  have p5r11 : (run (resetState d0 d1 input) 5).regs 11 = 40 := by
    rw [r5, q5ro 11 (by decide), p4r11] <;> try rfl
  have p5r12 : (run (resetState d0 d1 input) 5).regs 12 = 0 := by
    rw [r5, q5ro 12 (by decide), p4r12] <;> try rfl
  -- step 6: 0xF0C0, bsw port r0 = 1 (disk0 command r12 = 0: read)
  have r6 : run (resetState d0 d1 input) 6 = step (run (resetState d0 d1 input) 5) := rfl
  have hw6 : (run (resetState d0 d1 input) 5).memory.read
      (run (resetState d0 d1 input) 5).pc = 0xF0C0 := by
    rw [p5mem, p5pc]; decide
  obtain ⟨q6pc, q6halt, q6mem, q6d0, q6in, q6r⟩ :=
    step_bsw_port1_facts (run (resetState d0 d1 input) 5) 0xF0C0 0 12 0 p5halt hw6
      (by decide) (by decide) (by decide) (by decide) p5r0
  have p6pc : (run (resetState d0 d1 input) 6).pc = 9 := by rw [r6, q6pc, p5pc] <;> try rfl
  have p6halt : (run (resetState d0 d1 input) 6).halt = false := by rw [r6, q6halt] <;> try rfl
  have p6mem : (run (resetState d0 d1 input) 6).memory =
      (do_disk_operation d0 MemoryAdapter.init 0).2 := by
    rw [r6, q6mem, p5d0, p5mem, p5r12] <;> try rfl
  have p6d0 : (run (resetState d0 d1 input) 6).disk0 =
      (do_disk_operation d0 MemoryAdapter.init 0).1 := by
    rw [r6, q6d0, p5d0, p5mem, p5r12] <;> try rfl
  have p6in : (run (resetState d0 d1 input) 6).input = input := by rw [r6, q6in, p5in] <;> try rfl
  have p6r11 : (run (resetState d0 d1 input) 6).regs 11 = 40 := by rw [r6, q6r, p5r11] <;> try rfl
  have p6r12 : (run (resetState d0 d1 input) 6).regs 12 = 0 := by rw [r6, q6r, p5r12] <;> try rfl
  -- step 7: 0x00BB, jmp r0, r11, r11 (taken: r11 = 0x28)
  have r7 : run (resetState d0 d1 input) 7 = step (run (resetState d0 d1 input) 6) := rfl
  have hw7 : (run (resetState d0 d1 input) 6).memory.read
      (run (resetState d0 d1 input) 6).pc = 0x00BB := by
    rw [p6mem, p6pc]
    simp [MemoryAdapter.read, fwWord9]
  obtain ⟨q7pc, q7halt, q7mem, q7d0, q7in, q7rd, q7ro⟩ :=
    step_jmp_taken_facts (run (resetState d0 d1 input) 6) 0x00BB 0 11 11 p6halt hw7
      (by decide) (by decide) (by decide) (by decide) (by rw [p6r11]; decide)
  refine ⟨?_, ?_, ?_, ?_, ?_, ?_, ?_⟩
  · rw [r7, q7pc, p6r11] <;> try rfl
  · rw [r7, q7mem, p6mem] <;> try rfl
  · rw [r7, q7d0, p6d0] <;> try rfl
  · rw [r7, q7halt] <;> try rfl
  · rw [r7, q7rd, p6pc] <;> try rfl
  · rw [r7, q7ro 12 (by decide), p6r12] <;> try rfl
  · rw [r7, q7in, p6in] <;> try rfl

/-- Claim C2 (amended): from reset, the firmware unconditionally issues
disk command 0 to disk0 (its `sector` and `address` registers still at
their reset value 0) and jumps to `0x28` after 7 steps; when
`disk0.sector_count` is non-zero this loads sector 0 through the adapter
(firmware region protected) before guest code runs at `0x28`; when
`disk0.sector_count` is zero (controller absent or empty) the command is
a no-op, and the machine reaches the serial-input wait instruction
(`0xE20C`, a bus read of port `regs[0xC] = 0`) at address `0xA` after one
more step — having first executed the zero word at RAM address `0x28`,
which jumps back into the firmware. -/
theorem C2_boot_dichotomy_amended (d0 d1 : DiskController) (input : List Nat)
    (hsec : d0.sector = 0) (haddr : d0.address = 0) :
    (d0.attached = true → 0 < d0.sectorCount →
      (run (resetState d0 d1 input) 7).pc = 0x28 ∧
      (run (resetState d0 d1 input) 7).memory =
        (do_disk_operation d0 MemoryAdapter.init 0).2 ∧
      (run (resetState d0 d1 input) 7).disk0 = d0 ∧
      (run (resetState d0 d1 input) 7).disk0.sector = 0 ∧
      (run (resetState d0 d1 input) 7).disk0.address = 0) ∧
    (d0.attached = false ∨ d0.sectorCount = 0 →
      (run (resetState d0 d1 input) 8).pc = 0xA ∧
      (run (resetState d0 d1 input) 8).memory = MemoryAdapter.init ∧
      (run (resetState d0 d1 input) 8).input = input ∧
      (run (resetState d0 d1 input) 8).regs 0xC = 0 ∧
      firmwareWord 0xA = 0xE20C ∧ decodeOp 0xE20C = 14 ∧ decodeSrc0 0xE20C = 0xC) := by
  obtain ⟨p7pc, p7mem, p7d0, p7halt, p7r0, p7r12, p7in⟩ := boot_run7 d0 d1 input
  have hfst : (run (resetState d0 d1 input) 7).disk0 = d0 := by
    rw [p7d0, do_disk_operation_read_fst] <;> try rfl
  constructor
  · intro _ _
    refine ⟨p7pc, p7mem, hfst, ?_, ?_⟩
    · rw [hfst, hsec] <;> try rfl
    · rw [hfst, haddr] <;> try rfl
  · intro hno
    have hd := do_disk_operation_noop d0 MemoryAdapter.init 0 hno
    have hm : (run (resetState d0 d1 input) 7).memory = MemoryAdapter.init := by
      rw [p7mem, hd] <;> try rfl
    have hw8 : (run (resetState d0 d1 input) 7).memory.read
        (run (resetState d0 d1 input) 7).pc = 0 := by
      rw [hm, p7pc]; decide
    have r8 : run (resetState d0 d1 input) 8 =
        step (run (resetState d0 d1 input) 7) := rfl
    obtain ⟨q8pc, q8halt, q8mem, q8d0, q8in, q8rd, q8ro⟩ :=
      step_jmp_taken_facts (run (resetState d0 d1 input) 7) 0 0 0 0 p7halt hw8
        (by decide) (by decide) (by decide) (by decide) (by rw [p7r0]; decide)
    refine ⟨?_, ?_, ?_, ?_, by decide, by decide, by decide⟩
    · rw [r8, q8pc, p7r0] <;> try rfl
    · rw [r8, q8mem, hm]
    · rw [r8, q8in, p7in] <;> try rfl
    · rw [r8, q8ro 12 (by decide), p7r12] <;> try rfl

/-- Witness for C2: the amended dichotomy applied to a one-sector zero
disk (control reaches `0x28`) and to the absent disk (control reaches the
wait loop at `0xA`). -/
theorem C2_boot_dichotomy_witness :
    (run (resetState bootDisk DiskController.absent []) 7).pc = 0x28 ∧
    (run (resetState DiskController.absent DiskController.absent []) 8).pc = 0xA :=
  ⟨((C2_boot_dichotomy_amended bootDisk DiskController.absent [] rfl rfl).1 rfl
      (by decide)).1,
   ((C2_boot_dichotomy_amended DiskController.absent DiskController.absent [] rfl rfl).2
      (Or.inl rfl)).1⟩

/-! ## Claim C8 -/

/-- Claim C8 counterexample: invoked with a single argument (`argc = 2`),
`main` prints the usage text and returns 0, not the claimed exit code 1. -/
theorem C8_argc_counterexample :
    mainExitCode 2 "disk0.img" "" (fun _ => true) true = 0 ∧
    mainExitCode 2 "disk0.img" "" (fun _ => true) true ≠ 1 := by
  constructor
  · rfl
  · decide

/-- Claim C8 (amended): an argument-count mismatch exits 0 after printing
usage; a missing non-`--` path exits 1; with both paths valid the process
exits 0 on a normal halt and 1 on a fatal error. -/
theorem C8_exit_codes_amended (argc : Nat) (arg1 arg2 : String)
    (fileExists : String → Bool) (runOk : Bool) :
    (argc ≠ 3 → mainExitCode argc arg1 arg2 fileExists runOk = 0) ∧
    (argc = 3 → ((arg1 == "--") || fileExists arg1) = false ∨
        ((arg2 == "--") || fileExists arg2) = false →
      mainExitCode argc arg1 arg2 fileExists runOk = 1) ∧
    (argc = 3 → ((arg1 == "--") || fileExists arg1) = true →
        ((arg2 == "--") || fileExists arg2) = true →
      mainExitCode argc arg1 arg2 fileExists runOk = if runOk then 0 else 1) := by
  refine ⟨?_, ?_, ?_⟩
  · intro h
    simp [mainExitCode, h]
  · intro h3 hmiss
    rcases hmiss with h | h <;> simp [mainExitCode, h3, h]
  · intro h3 h1 h2
    simp [mainExitCode, h3, h1, h2]

/-- Witness for C8: wrong argument count gives 0, a missing path gives 1,
and a normal halt gives 0. -/
theorem C8_exit_codes_amended_witness :
    mainExitCode 1 "" "" (fun _ => false) true = 0 ∧
    mainExitCode 3 "lost.img" "--" (fun _ => false) true = 1 ∧
    mainExitCode 3 "--" "--" (fun _ => false) true = if true then 0 else 1 :=
  ⟨(C8_exit_codes_amended 1 "" "" (fun _ => false) true).1 (by decide),
   (C8_exit_codes_amended 3 "lost.img" "--" (fun _ => false) true).2.1 rfl
     (Or.inl (by decide)),
   (C8_exit_codes_amended 3 "--" "--" (fun _ => false) true).2.2 rfl (by decide)
     (by decide)⟩

end Bedrock
